import Mathlib

/-!
Verification of the shape-tracker and matmul-fusion core of the luminal
tensor-compiler repository.

`ShapeTracker` and its operations are shallowly embedded from
`src/core/shape/tracker.rs`.  The `Expression` type of the repository
(`src/core/shape/symbolic.rs`) is not part of the sources under
verification; following spec section 4.A ("every Expression can be
evaluated under a variable→integer map", "constant folding is total"),
expressions are modelled by their integer values, which is faithful for
the constant expressions the claims range over.  Rust panics are
modelled as `Option.none`; operations whose only panics are
out-of-bounds indexing on malformed arguments are modelled as total
functions and proved under the corresponding in-range hypotheses.
-/

namespace Luminal

/-- The `i32::MAX` sentinel used for an unset slice upper bound
(`src/core/shape/tracker.rs` line 28). -/
def i32MAX : Int := 2147483647

/-- Structure `ShapeTracker` (`src/core/shape/tracker.rs` lines 6-13): five parallel
arrays.  The Rust `ArrayVec<[_; 6]>` fixed-capacity vectors are modelled as
lists; the capacity bound appears as a hypothesis where a claim states it. -/
structure ShapeTracker where
  dims : List Int
  indexes : List Nat
  fake : List Bool
  slices : List (Int × Int)
  padding : List (Int × Int)
deriving DecidableEq, Inhabited

namespace ShapeTracker

/-- Embeds `ShapeTracker::new` (tracker.rs lines 16-32). -/
def new (ds : List Int) : ShapeTracker where
  dims := ds
  indexes := List.range ds.length
  fake := List.replicate ds.length false
  slices := List.replicate ds.length (0, i32MAX)
  padding := List.replicate ds.length (0, 0)

/-- Embeds `ShapeTracker::fake` (tracker.rs lines 35-41): like `new` but every
axis marked fake.  Named `fakeAll` because `fake` is the field name. -/
def fakeAll (ds : List Int) : ShapeTracker :=
  { new ds with fake := List.replicate ds.length true }

/-- Embeds `ShapeTracker::len` (tracker.rs lines 216-218). -/
def len (s : ShapeTracker) : Nat := s.dims.length

/-- Embeds `ShapeTracker::add_dim` (tracker.rs lines 44-50): insert the new
physical position `dims.len()` into `indexes` at presentation position
`axis` and push onto every other array. -/
def add_dim (s : ShapeTracker) (axis : Nat) (dim : Int) : ShapeTracker where
  dims := s.dims ++ [dim]
  indexes := s.indexes.insertIdx axis s.dims.length
  fake := s.fake ++ [false]
  slices := s.slices ++ [(0, i32MAX)]
  padding := s.padding ++ [(0, 0)]

/-- Embeds `ShapeTracker::expand` (tracker.rs lines 53-56): `add_dim` then mark
`fake[indexes[axis]]` true. -/
def expand (s : ShapeTracker) (axis : Nat) (dim : Int) : ShapeTracker :=
  let t := s.add_dim axis dim
  { t with fake := t.fake.set (t.indexes.getD axis 0) true }

/-- The mutation performed by `ShapeTracker::remove_dim` (tracker.rs lines
59-70): remove `indexes[axis]`, erase position `index` from every other
array, and decrement every surviving index greater than `index`. -/
def removeDimCore (s : ShapeTracker) (axis : Nat) : ShapeTracker :=
  let index := s.indexes.getD axis 0
  { dims := s.dims.eraseIdx index
    indexes := (s.indexes.eraseIdx axis).map (fun i => if index < i then i - 1 else i)
    fake := s.fake.eraseIdx index
    slices := s.slices.eraseIdx index
    padding := s.padding.eraseIdx index }

/-- Embeds `ShapeTracker::remove_dim` (tracker.rs lines 59-70), returning the
removed dim.  `self.indexes.remove(axis)` panics when `axis` is out of
range; the panic is modelled as `none`. -/
def remove_dim (s : ShapeTracker) (axis : Nat) : Option (ShapeTracker × Int) :=
  if axis < s.indexes.length then
    some (s.removeDimCore axis, s.dims.getD (s.indexes.getD axis 0) 0)
  else none

/-- Embeds `ShapeTracker::permute` (tracker.rs lines 73-76):
`indexes[k] := old_indexes[axes[k]]`.  (`copy_from_slice` additionally
panics unless `axes.len() == indexes.len()`; claims about `permute` carry
that hypothesis.) -/
def permute (s : ShapeTracker) (axes : List Nat) : ShapeTracker :=
  { s with indexes := axes.map (fun i => s.indexes.getD i 0) }

/-- Embeds `ShapeTracker::realize` (tracker.rs lines 224-229):
`dims[indexes[i]] := new_dims[i]`. -/
def realize (s : ShapeTracker) (ds : List Int) : ShapeTracker :=
  { s with dims := s.indexes.enum.foldl (fun d p => d.set p.2 (ds.getD p.1 0)) s.dims }

/-- Embeds `ShapeTracker::slice` (tracker.rs lines 263-268): per presented axis
`i`, `lo := lo.max(s.max(0))` and `hi := hi.min(e.max(0))` at physical
position `indexes[i]`.  Never fails. -/
def slice (s : ShapeTracker) (sl : List (Int × Int)) : ShapeTracker :=
  sl.enum.foldl
    (fun t p =>
      let idx := t.indexes.getD p.1 0
      let cur := t.slices.getD idx (0, 0)
      let upd := (max cur.1 (max p.2.1 0), min cur.2 (max p.2.2 0))
      { t with slices := t.slices.set idx upd })
    s

/-- The loop of `ShapeTracker::pad` (tracker.rs lines 271-291), with `i`
the running axis counter.  The Rust panic (message: Adding padding to a
slice is not supported) is modelled as `none`.  The Rust guard
`e.to_usize().map(|n| n != 0).unwrap_or(true)` is `e ≠ 0` (a negative or
non-constant amount also takes the `true` branch), and likewise
`slices.1.to_usize().map(|n| n as i32 != i32::MAX).unwrap_or(true)` is
`hi ≠ i32MAX` on the value range reachable through the API. -/
def padGo (t : ShapeTracker) (i : Nat) : List (Int × Int) → Option ShapeTracker
  | [] => some t
  | p :: rest =>
    let idx := t.indexes.getD i 0
    let sl := t.slices.getD idx (0, i32MAX)
    if (p.2 ≠ 0 ∧ sl.2 ≠ i32MAX) ∨ (p.1 ≠ 0 ∧ sl.1 ≠ 0) then none
    else
      let cur := t.padding.getD idx (0, 0)
      padGo
        { t with padding := t.padding.set idx (cur.1 + max p.1 0, cur.2 + max p.2 0) }
        (i + 1) rest

/-- Embeds `ShapeTracker::pad` (tracker.rs lines 271-291). -/
def pad (s : ShapeTracker) (ps : List (Int × Int)) : Option ShapeTracker :=
  padGo s 0 ps

/-- Embeds `ShapeTracker::shape` (tracker.rs lines 251-260): per presented axis,
`(dims[i] + padding[i].0 - slices[i].0 + padding[i].1).min(slices[i].1)`
with `i = indexes[k]`.  Note the subtraction sits inside the `min`. -/
def shape (s : ShapeTracker) : List Int :=
  s.indexes.map (fun i =>
    min (s.dims.getD i 0 + (s.padding.getD i (0, 0)).1 - (s.slices.getD i (0, 0)).1
          + (s.padding.getD i (0, 0)).2)
        (s.slices.getD i (0, 0)).2)

/-- The per-axis extent formula the spec states for `shape()`
("min(dim + before + after, hi) - lo", spec section 4.B); also the
formula `n_elements`, `index_expression` and `valid_expression` use in
tracker.rs.  Kept separate from `shape` to compare the two. -/
def shapeSpec (s : ShapeTracker) : List Int :=
  s.indexes.map (fun i =>
    min (s.dims.getD i 0 + (s.padding.getD i (0, 0)).1 + (s.padding.getD i (0, 0)).2)
        (s.slices.getD i (0, 0)).2
      - (s.slices.getD i (0, 0)).1)

/-- Embeds `ShapeTracker::n_elements` (tracker.rs lines 181-196): the product
over presented axes of `(dim + pad.0 + pad.1).min(slices.1) - slices.0`,
collapsed to `1` when the product is `0`. -/
def n_elements (s : ShapeTracker) : Int :=
  let r := (s.indexes.map (fun i =>
    min (s.dims.getD i 0 + (s.padding.getD i (0, 0)).1 + (s.padding.getD i (0, 0)).2)
        (s.slices.getD i (0, 0)).2
      - (s.slices.getD i (0, 0)).1)).prod
  if r = 0 then 1 else r

/-- Embeds `ShapeTracker::contiguous` (tracker.rs lines 232-243): a fresh tracker
on `dims[i].min(slices[i].1 - slices[i].0) + padding[i].0 + padding[i].1`
over presented axes. -/
def contiguous (s : ShapeTracker) : ShapeTracker :=
  new (s.indexes.map (fun i =>
    min (s.dims.getD i 0) ((s.slices.getD i (0, 0)).2 - (s.slices.getD i (0, 0)).1)
      + (s.padding.getD i (0, 0)).1 + (s.padding.getD i (0, 0)).2))

/-- Embeds `ShapeTracker::is_sliced` (tracker.rs lines 317-322). -/
def is_sliced (s : ShapeTracker) : Bool :=
  s.slices.any (fun p => p.1 != 0 || p.2 != i32MAX)

/-- Embeds `ShapeTracker::is_padded` (tracker.rs lines 324-329). -/
def is_padded (s : ShapeTracker) : Bool :=
  s.padding.any (fun p => p.1 != 0 || p.2 != 0)

/-- Well-formedness every tracker reachable through the API enjoys: the
five parallel arrays have equal length and every entry of `indexes` is a
valid physical position (spec section 3, Shape Tracker invariants). -/
def WF (s : ShapeTracker) : Prop :=
  s.indexes.length = s.dims.length ∧ s.fake.length = s.dims.length ∧
  s.slices.length = s.dims.length ∧ s.padding.length = s.dims.length ∧
  ∀ i ∈ s.indexes, i < s.dims.length

instance (s : ShapeTracker) : Decidable s.WF := by
  unfold WF; infer_instance

/-- The inverse of a permutation given as a list: `invPerm p` sends `k` to
the position of `k` in `p`. -/
def invPerm (p : List Nat) : List Nat :=
  (List.range p.length).map (fun k => p.indexOf k)

/-- The fake flags in presentation order, as the `fakes` masks of a selector
constrain them (spec section 4.D). -/
def presentedFakes (s : ShapeTracker) : List Bool :=
  s.indexes.map (fun i => s.fake.getD i false)

end ShapeTracker

/-! ## Graph container and the 2D matmul rewrite

The graph container itself (petgraph wrapper, `get_sources`,
`move_outgoing_edge`, `move_references`, `add_op`, `remove_node`) is not
among the sources; it is modelled from spec sections 3.C and 4.C.  The
rewrite loop body is embedded from
`src/compilers/metal/fp16/matmul.rs` lines 424-461 (the cuda pass,
`src/optimizers/cuda/matmul.rs` lines 118-155, performs the same
tracker surgery). -/

/-- Operator labels, as far as the 2D matmul pattern needs them. -/
inductive Op where
  | inputOp : Op
  | mul : Op
  | sumReduce : Nat → Op
  | matmul2D : Op
deriving DecidableEq, Inhabited

/-- A typed edge: `(source_output_index, dest_input_index, shape_tracker)`
between two node ids (spec section 3.C). -/
structure Edge where
  src : Nat
  dst : Nat
  outIdx : Nat
  inpIdx : Nat
  tracker : ShapeTracker
deriving DecidableEq, Inhabited

/-- Modelled from the spec: the Graph container (section 3.C) — operator
nodes with stable integer ids, typed edges, and the auxiliary sets
`no_delete`, `to_retrieve`, `id_remap`. -/
structure Graph where
  nodes : List (Nat × Op)
  edges : List Edge
  no_delete : List Nat
  to_retrieve : List Nat
  id_remap : List (Nat × Nat)
  next_id : Nat
deriving DecidableEq, Inhabited

namespace Graph

/-- Modelled from the spec: `add_op(op).input(...)...finish()` (section
4.C) — insert a node under the next fresh id with one input edge per
listed `(source_node, output_idx, shape_tracker)`, input indices in
listed order. -/
def addOp (g : Graph) (op : Op) (inputs : List (Nat × Nat × ShapeTracker)) : Graph :=
  { g with
    nodes := g.nodes ++ [(g.next_id, op)]
    edges := g.edges ++ inputs.enum.map (fun p =>
      { src := p.2.1, dst := g.next_id, outIdx := p.2.2.1, inpIdx := p.1,
        tracker := p.2.2.2 })
    next_id := g.next_id + 1 }

/-- Insertion into a list of edges sorted by destination input index. -/
def insertByInp (e : Edge) : List Edge → List Edge
  | [] => [e]
  | x :: xs => if e.inpIdx ≤ x.inpIdx then e :: x :: xs else x :: insertByInp e xs

/-- Insertion sort of edges by destination input index. -/
def sortByInp : List Edge → List Edge
  | [] => []
  | x :: xs => insertByInp x (sortByInp xs)

/-- Modelled from the spec: `get_sources(node)` (section 4.C) — the
ordered list of `(source_node, shape_tracker)` for the inputs of a node. -/
def getSources (g : Graph) (n : Nat) : List (Nat × ShapeTracker) :=
  (sortByInp (g.edges.filter (fun e => e.dst == n))).map (fun e => (e.src, e.tracker))

/-- Modelled from the spec: `move_outgoing_edge(src, dst, g)` (section
4.C) — re-parent every outgoing edge of `src` to originate at `dst`,
preserving edge weights. -/
def moveOutgoingEdge (g : Graph) (src dst : Nat) : Graph :=
  { g with edges := g.edges.map (fun e =>
      if e.src == src then { e with src := dst } else e) }

/-- Modelled from the spec: `move_references(id_remap, no_delete,
to_retrieve, old, new)` (section 4.C) — update the pinned sets and insert
`old → new` in the remap. -/
def moveReferences (g : Graph) (old new' : Nat) : Graph :=
  { g with
    id_remap := g.id_remap ++ [(old, new')]
    no_delete := g.no_delete.map (fun x => if x = old then new' else x)
    to_retrieve := g.to_retrieve.map (fun x => if x = old then new' else x) }

/-- Modelled from the spec: `remove_node(n)` (section 4.C) — remove the
node and all incident edges. -/
def removeNode (g : Graph) (n : Nat) : Graph :=
  { g with
    nodes := g.nodes.filter (fun p => p.1 != n)
    edges := g.edges.filter (fun e => e.src != n && e.dst != n) }

/-- One iteration of the 2D-matmul rewrite loop
(`src/compilers/metal/fp16/matmul.rs` lines 424-461) for the match
`(mul, sum_reduce)`: skip if `mul` is pinned; otherwise undo the fake
axes on the two source trackers (`remove_dim(1)`; `remove_dim(0)` then
`permute([1,0])`), insert the fused matmul node on those sources,
re-parent the outgoing edges of the sum-reduce to it, move references, and
remove the two matched nodes. -/
def matmulRewriteStep (g : Graph) (mul sr : Nat) : Graph :=
  if mul ∈ g.no_delete then g
  else
    let srcs := g.getSources mul
    let s0 := srcs.getD 0 default
    let s1 := srcs.getD 1 default
    let t0 := s0.2.removeDimCore 1
    let t1 := (s1.2.removeDimCore 0).permute [1, 0]
    let newId := g.next_id
    let g1 := g.addOp Op.matmul2D [(s0.1, 0, t0), (s1.1, 0, t1)]
    let g2 := g1.moveOutgoingEdge sr newId
    let g3 := g2.moveReferences sr newId
    (g3.removeNode mul).removeNode sr

end Graph

/-! ## Theorems -/

/-- C1: the claim states `shape()[k] = min(dim + before + after, hi) - lo`.
On `new([5])` sliced with `(1, 3)` the implemented `shape()` returns `[3]`
(it computes `min(dim + before - lo + after, hi)`, tracker.rs lines
251-260), while the claimed formula — the one `n_elements`,
`index_expression` and `valid_expression` use — gives `[2]`, the true
extent of slice `[1, 3)` of a size-5 axis.  The code diverges from the
claim at this input. -/
theorem C1_shape_slice_divergence :
    ((ShapeTracker.new [5]).slice [(1, 3)]).shape = [3] ∧
    ShapeTracker.shapeSpec ((ShapeTracker.new [5]).slice [(1, 3)]) = [2] := by
  decide

/-- C4: the claim states `n_elements()` equals the product of the
components of `shape()` (with zero products collapsing to 1).  On
`new([5])` sliced with `(1, 3)`, `n_elements()` is `2` but the product of
`shape()` is `3`, because `shape()` (tracker.rs lines 251-260) subtracts
`lo` inside the `min` while `n_elements` (lines 181-196) subtracts it
outside. -/
theorem C4_n_elements_shape_divergence :
    ((ShapeTracker.new [5]).slice [(1, 3)]).n_elements = 2 ∧
    ((ShapeTracker.new [5]).slice [(1, 3)]).shape.prod = 3 := by
  decide

/-- C5: the claim states `contiguous()` returns a tracker whose dims equal
`shape()`.  On `new([5])` sliced with `(1, i32::MAX)` (a lower bound
only), `contiguous()` (tracker.rs lines 232-243, formula
`dim.min(hi - lo) + before + after`) produces dims `[5]`, while `shape()`
and the extent formula of the spec both give `[4]`. -/
theorem C5_contiguous_dims_divergence :
    ((ShapeTracker.new [5]).slice [(1, i32MAX)]).contiguous.dims = [5] ∧
    ((ShapeTracker.new [5]).slice [(1, i32MAX)]).shape = [4] ∧
    ShapeTracker.shapeSpec ((ShapeTracker.new [5]).slice [(1, i32MAX)]) = [4] := by
  decide

/-- C2 counterexample: `slice` never raises.  Padding `new([3])` by
`(1, 1)` succeeds, and then slicing the padded axis with `(1, 2)` also
succeeds (tracker.rs lines 263-268 perform no compose check), leaving
nonzero padding `(1, 1)` and a non-trivial slice `(1, 2)` simultaneously
in effect on axis 0 — contradicting both "applying slice to a padded axis
raises InvalidCompose" and "padding and slicing are never both in
effect". -/
theorem C2_slice_padded_axis_counterexample :
    ((ShapeTracker.new [3]).pad [(1, 1)]).isSome = true ∧
    ((((ShapeTracker.new [3]).pad [(1, 1)]).getD default).slice [(1, 2)]).padding = [(1, 1)] ∧
    ((((ShapeTracker.new [3]).pad [(1, 1)]).getD default).slice [(1, 2)]).slices = [(1, 2)] := by
  decide

/-- C6 counterexample: `pad` against a sliced axis does not always fail.
`new([5])` sliced with `(1, i32::MAX)` is sliced (`is_sliced` holds), yet
padding it by `(0, 2)` succeeds, because the guard in tracker.rs lines
273-285 only rejects an `after` amount against a set upper bound or a
`before` amount against a nonzero lower bound. -/
theorem C6_pad_sliced_axis_counterexample :
    ((ShapeTracker.new [5]).slice [(1, i32MAX)]).is_sliced = true ∧
    (((ShapeTracker.new [5]).slice [(1, i32MAX)]).pad [(0, 2)]).isSome = true := by
  decide

/-- C7: if the Multiply node of a matched 2D matmul pattern is pinned
(`no_delete`), the rewrite loop body (`matmul.rs` lines 425-428) skips
the match before touching anything: the graph — nodes, edges, `id_remap`,
`no_delete`, `to_retrieve` — is returned unchanged. -/
theorem C7_pinned_match_skipped (g : Graph) (mul sr : Nat)
    (hpin : mul ∈ g.no_delete) :
    g.matmulRewriteStep mul sr = g := by
  simp [Graph.matmulRewriteStep, hpin]

/-- Witness graph for C7: a scenario-5 graph whose Multiply node (id 2)
is pinned. -/
def wg7 : Graph where
  nodes := [(0, Op.inputOp), (1, Op.inputOp), (2, Op.mul), (3, Op.sumReduce 2),
            (4, Op.inputOp)]
  edges :=
    [{ src := 0, dst := 2, outIdx := 0, inpIdx := 0,
       tracker := (ShapeTracker.new [2, 4]).expand 1 3 },
     { src := 1, dst := 2, outIdx := 0, inpIdx := 1,
       tracker := ((ShapeTracker.new [4, 3]).permute [1, 0]).expand 0 2 },
     { src := 2, dst := 3, outIdx := 0, inpIdx := 0, tracker := ShapeTracker.new [2, 3, 4] },
     { src := 3, dst := 4, outIdx := 0, inpIdx := 0, tracker := ShapeTracker.new [2, 3] }]
  no_delete := [2]
  to_retrieve := [4]
  id_remap := []
  next_id := 5

/-- Witness for C7 at the pinned scenario graph. -/
theorem C7_pinned_match_skipped_witness :
    (2 : Nat) ∈ wg7.no_delete ∧ wg7.matmulRewriteStep 2 3 = wg7 :=
  ⟨by decide, C7_pinned_match_skipped wg7 2 3 (by decide)⟩

/-- Helper for C2 and C6: `padGo` succeeds exactly when no processed axis
trips the compose guard of tracker.rs lines 273-285.  The guard reads
only `indexes` and `slices`, which `padGo` never modifies. -/
theorem padGo_isSome_iff (ps : List (Int × Int)) :
    ∀ (t : ShapeTracker) (i : Nat),
      (ShapeTracker.padGo t i ps).isSome = true ↔
        ∀ k, k < ps.length →
          ¬ (((ps.getD k (0, 0)).2 ≠ 0 ∧
                (t.slices.getD (t.indexes.getD (i + k) 0) (0, i32MAX)).2 ≠ i32MAX) ∨
             ((ps.getD k (0, 0)).1 ≠ 0 ∧
                (t.slices.getD (t.indexes.getD (i + k) 0) (0, i32MAX)).1 ≠ 0)) := by
  induction ps with
  | nil => intro t i; simp [ShapeTracker.padGo]
  | cons p rest ih =>
    intro t i
    simp only [ShapeTracker.padGo]
    split
    · rename_i h
      simp only [Option.isSome_none, Bool.false_eq_true, false_iff]
      intro hall
      exact hall 0 (by simp) (by simpa using h)
    · rename_i h
      rw [ih _ (i + 1)]
      constructor
      · intro hall k hk
        match k with
        | 0 => simpa using h
        | k' + 1 =>
          have hk' : k' < rest.length := by
            simpa using Nat.lt_of_succ_lt_succ hk
          have h2 := hall k' hk'
          have harith : i + 1 + k' = i + (k' + 1) := by omega
          rw [harith] at h2
          simpa using h2
      · intro hall k hk
        have h2 := hall (k + 1) (by simpa using Nat.succ_lt_succ hk)
        have harith : i + (k + 1) = i + 1 + k := by omega
        rw [harith] at h2
        simpa using h2

/-- C2 (amended): `slice` never raises (tracker.rs lines 263-268 clamp
unconditionally, so padding and slicing can both be in effect on one
axis); `pad` raises `InvalidCompose` exactly when some axis pairs a
nonzero `after` amount with a set slice upper bound, or a nonzero
`before` amount with a nonzero slice lower bound. -/
theorem C2_pad_failure_characterization (s : ShapeTracker) (ps : List (Int × Int))
    (hWF : s.WF) (hlen : ps.length ≤ s.len) :
    (s.pad ps).isSome = true ↔
      ∀ k, k < ps.length →
        ¬ (((ps.getD k (0, 0)).2 ≠ 0 ∧
              (s.slices.getD (s.indexes.getD k 0) (0, i32MAX)).2 ≠ i32MAX) ∨
           ((ps.getD k (0, 0)).1 ≠ 0 ∧
              (s.slices.getD (s.indexes.getD k 0) (0, i32MAX)).1 ≠ 0)) := by
  have h := padGo_isSome_iff ps s 0
  simpa using h

/-- Witness tracker for C2: a lower-bound-sliced axis. -/
def w2s : ShapeTracker := (ShapeTracker.new [5]).slice [(1, 3)]

/-- Witness pad amounts for C2: a nonzero `before` amount. -/
def w2p : List (Int × Int) := [(1, 0)]

/-- Witness for C2 at a lower-bound-sliced tracker and a `before` pad
amount, where `pad` fails and the guard condition holds. -/
theorem C2_pad_failure_characterization_witness :
    (w2s.WF ∧ w2p.length ≤ w2s.len) ∧
    ((w2s.pad w2p).isSome = true ↔
      ∀ k, k < w2p.length →
        ¬ (((w2p.getD k (0, 0)).2 ≠ 0 ∧
              (w2s.slices.getD (w2s.indexes.getD k 0) (0, i32MAX)).2 ≠ i32MAX) ∨
           ((w2p.getD k (0, 0)).1 ≠ 0 ∧
              (w2s.slices.getD (w2s.indexes.getD k 0) (0, i32MAX)).1 ≠ 0))) :=
  ⟨⟨by decide, by decide⟩,
    C2_pad_failure_characterization w2s w2p (by decide) (by decide)⟩

/-- C6 (amended): every shape-tracker operation is infallible on in-range
arguments except two: `remove_dim` fails exactly when the axis is out of
range (tracker.rs line 60), and `pad` fails exactly under the per-axis
compose guard (lines 273-285) — which is finer than "any sliced axis":
a nonzero `after` amount fails only against a set upper bound and a
nonzero `before` amount only against a nonzero lower bound.  `slice`,
`permute`, `add_dim`, `expand` and `realize` are total. -/
theorem C6_failure_semantics (s : ShapeTracker) (axis : Nat) (ps : List (Int × Int))
    (hWF : s.WF) (hlen : ps.length ≤ s.len) :
    ((s.remove_dim axis).isSome = true ↔ axis < s.len) ∧
    ((s.pad ps).isSome = true ↔
      ∀ k, k < ps.length →
        ¬ (((ps.getD k (0, 0)).2 ≠ 0 ∧
              (s.slices.getD (s.indexes.getD k 0) (0, i32MAX)).2 ≠ i32MAX) ∨
           ((ps.getD k (0, 0)).1 ≠ 0 ∧
              (s.slices.getD (s.indexes.getD k 0) (0, i32MAX)).1 ≠ 0))) := by
  constructor
  · rw [ShapeTracker.remove_dim]
    split
    · rename_i h
      simp only [Option.isSome_some, true_iff]
      rw [ShapeTracker.len, ← hWF.1]
      exact h
    · rename_i h
      simp only [Option.isSome_none, Bool.false_eq_true, false_iff]
      rw [ShapeTracker.len, ← hWF.1]
      exact h
  · have h := padGo_isSome_iff ps s 0
    simpa using h

/-- Witness tracker for C6. -/
def w6s : ShapeTracker := ShapeTracker.new [2]

/-- Witness pad amounts for C6: an `after` amount against an unset upper
bound, which is allowed. -/
def w6p : List (Int × Int) := [(0, 3)]

/-- Witness for C6: an out-of-range `remove_dim` axis and an allowed pad
on `new([2])`. -/
theorem C6_failure_semantics_witness :
    (w6s.WF ∧ w6p.length ≤ w6s.len) ∧
    ((w6s.remove_dim 5).isSome = true ↔ 5 < w6s.len) ∧
    ((w6s.pad w6p).isSome = true ↔
      ∀ k, k < w6p.length →
        ¬ (((w6p.getD k (0, 0)).2 ≠ 0 ∧
              (w6s.slices.getD (w6s.indexes.getD k 0) (0, i32MAX)).2 ≠ i32MAX) ∨
           ((w6p.getD k (0, 0)).1 ≠ 0 ∧
              (w6s.slices.getD (w6s.indexes.getD k 0) (0, i32MAX)).1 ≠ 0))) :=
  ⟨⟨by decide, by decide⟩,
    C6_failure_semantics w6s 5 w6p (by decide) (by decide)⟩

/-- Helper: erasing the position just past a list, after appending one
element there, restores the list. -/
theorem eraseIdx_concat_self {α : Type} (l : List α) (a : α) :
    (l ++ [a]).eraseIdx l.length = l := by
  rw [List.eraseIdx_append_of_length_le (Nat.le_refl l.length)]
  simp

/-- C8: applying `permute(p)` and then `permute(inverse(p))` restores the
tracker exactly in all five parallel arrays, for every permutation `p` of
`{0..len}` (tracker.rs lines 73-76: `permute` only re-gathers
`indexes`). -/
theorem C8_permute_involutive (s : ShapeTracker) (p : List Nat)
    (hWF : s.WF) (hp : p.Perm (List.range s.len)) :
    (s.permute p).permute (ShapeTracker.invPerm p) = s := by
  obtain ⟨ds, idx, fk, sl, pd⟩ := s
  have hlen1 : idx.length = ds.length := hWF.1
  have hplen : p.length = ds.length := by
    simpa [ShapeTracker.len] using hp.length_eq
  simp only [ShapeTracker.permute, ShapeTracker.invPerm, ShapeTracker.mk.injEq,
    true_and, and_true]
  apply List.ext_getElem
  · simp [hplen, hlen1]
  · intro k h1 h2
    have hkp : k < p.length := by simpa [hplen, ← hlen1] using h2
    have hkmem : k ∈ p := by
      rw [hp.mem_iff]
      simp [ShapeTracker.len, List.mem_range]
      omega
    have hik : p.indexOf k < p.length := List.indexOf_lt_length.mpr hkmem
    have hrange : k < (List.range p.length).length := by simpa using hkp
    rw [List.getElem_map, List.getElem_map, List.getElem_range,
      List.getD_eq_getElem _ _ (by simpa using hik), List.getElem_map,
      List.getElem_indexOf hik, List.getD_eq_getElem _ _ h2]

/-- Witness tracker for C8: a sliced three-axis tracker. -/
def w8s : ShapeTracker := (ShapeTracker.new [3, 4, 5]).slice [(0, 2), (1, 3), (0, 9)]

/-- Witness for C8 at the permutation `[2, 0, 1]` (inverse `[1, 2, 0]`). -/
theorem C8_permute_involutive_witness :
    (w8s.WF ∧ ([2, 0, 1] : List Nat).Perm (List.range w8s.len)) ∧
    (w8s.permute [2, 0, 1]).permute (ShapeTracker.invPerm [2, 0, 1]) = w8s :=
  ⟨⟨by decide, by decide⟩,
    C8_permute_involutive w8s [2, 0, 1] (by decide) (by decide)⟩

/-- C9: `add_dim(k, d)` (tracker.rs lines 44-50) followed by
`remove_dim(k)` (lines 59-70) restores the tracker exactly — all five
parallel arrays — and returns `d`, for any tracker with fewer than 6 axes
and any insertion position `k ≤ len`. -/
theorem C9_add_dim_remove_dim_roundtrip (s : ShapeTracker) (k : Nat) (d : Int)
    (hWF : s.WF) (hcap : s.len < 6) (hk : k ≤ s.len) :
    (s.add_dim k d).remove_dim k = some (s, d) := by
  obtain ⟨ds, idx, fk, sl, pd⟩ := s
  have h1 : idx.length = ds.length := hWF.1
  have h2 : fk.length = ds.length := hWF.2.1
  have h3 : sl.length = ds.length := hWF.2.2.1
  have h4 : pd.length = ds.length := hWF.2.2.2.1
  have hb : ∀ i ∈ idx, i < ds.length := hWF.2.2.2.2
  have hk' : k ≤ idx.length := by rw [h1]; exact hk
  have hlen : (idx.insertIdx k ds.length).length = idx.length + 1 :=
    List.length_insertIdx k idx hk'
  have hklt : k < (idx.insertIdx k ds.length).length := by omega
  have hgd : (idx.insertIdx k ds.length).getD k 0 = ds.length := by
    rw [List.getD_eq_getElem _ _ hklt]
    exact List.getElem_insertIdx_self idx ds.length k hk'
  simp only [ShapeTracker.add_dim, ShapeTracker.remove_dim, ShapeTracker.removeDimCore]
  rw [if_pos hklt]
  simp only [hgd]
  have hdims : (ds ++ [d]).eraseIdx ds.length = ds := eraseIdx_concat_self ds d
  have hfk : (fk ++ [false]).eraseIdx ds.length = fk := by
    rw [← h2]; exact eraseIdx_concat_self fk false
  have hsl : (sl ++ [(0, i32MAX)]).eraseIdx ds.length = sl := by
    rw [← h3]; exact eraseIdx_concat_self sl (0, i32MAX)
  have hpd : (pd ++ [(0, 0)]).eraseIdx ds.length = pd := by
    rw [← h4]; exact eraseIdx_concat_self pd (0, 0)
  have hidx : ((idx.insertIdx k ds.length).eraseIdx k).map
      (fun i => if ds.length < i then i - 1 else i) = idx := by
    rw [List.eraseIdx_insertIdx]
    have hcongr : idx.map (fun i => if ds.length < i then i - 1 else i)
        = idx.map id := by
      apply List.map_congr_left
      intro a ha
      have : a < ds.length := hb a ha
      simp [Nat.not_lt_of_lt this, id]
    rw [hcongr, List.map_id]
  have hval : (ds ++ [d]).getD ds.length 0 = d := by
    rw [List.getD_append_right ds [d] 0 ds.length (Nat.le_refl _)]
    simp
  rw [hdims, hfk, hsl, hpd, hidx, hval]

/-- Witness tracker for C9: a permuted two-axis tracker. -/
def w9s : ShapeTracker := (ShapeTracker.new [2, 4]).permute [1, 0]

/-- Witness for C9 at insertion position 1 and dim 7. -/
theorem C9_add_dim_remove_dim_roundtrip_witness :
    (w9s.WF ∧ w9s.len < 6 ∧ 1 ≤ w9s.len) ∧
    (w9s.add_dim 1 7).remove_dim 1 = some (w9s, 7) :=
  ⟨⟨by decide, by decide, by decide⟩,
    C9_add_dim_remove_dim_roundtrip w9s 1 7 (by decide) (by decide) (by decide)⟩

/-- C10: `permute(axes)` (tracker.rs lines 73-76) mutates only the
`indexes` array — `dims`, `fake`, `slices` and `padding` are untouched —
and the new `indexes[k]` is the old `indexes[axes[k]]`. -/
theorem C10_permute_only_indexes (s : ShapeTracker) (axes : List Nat)
    (hWF : s.WF) (hlen : axes.length = s.len)
    (hax : ∀ x ∈ axes, x < s.len) :
    (s.permute axes).dims = s.dims ∧ (s.permute axes).fake = s.fake ∧
    (s.permute axes).slices = s.slices ∧ (s.permute axes).padding = s.padding ∧
    (s.permute axes).indexes.length = s.indexes.length ∧
    ∀ k, k < axes.length →
      (s.permute axes).indexes.getD k 0 = s.indexes.getD (axes.getD k 0) 0 := by
  refine ⟨rfl, rfl, rfl, rfl, ?_, ?_⟩
  · simp [ShapeTracker.permute, hlen, hWF.1, ShapeTracker.len]
  · intro k hk
    have hk' : k < (axes.map (fun i => s.indexes.getD i 0)).length := by
      simpa using hk
    rw [ShapeTracker.permute]
    rw [List.getD_eq_getElem _ _ hk', List.getElem_map,
      List.getD_eq_getElem _ _ hk]

/-- Witness for C10: a permuted, sliced tracker and the permutation
`[2, 0, 1]`. -/
theorem C10_permute_only_indexes_witness :
    (ShapeTracker.WF ((ShapeTracker.new [3, 4, 5]).slice [(1, 4), (0, 2), (0, 9)]) ∧
      ([2, 0, 1] : List Nat).length = ((ShapeTracker.new [3, 4, 5]).slice [(1, 4), (0, 2), (0, 9)]).len ∧
      ∀ x ∈ ([2, 0, 1] : List Nat), x < ((ShapeTracker.new [3, 4, 5]).slice [(1, 4), (0, 2), (0, 9)]).len) ∧
    (((ShapeTracker.new [3, 4, 5]).slice [(1, 4), (0, 2), (0, 9)]).permute [2, 0, 1]).dims
        = ((ShapeTracker.new [3, 4, 5]).slice [(1, 4), (0, 2), (0, 9)]).dims ∧
    (((ShapeTracker.new [3, 4, 5]).slice [(1, 4), (0, 2), (0, 9)]).permute [2, 0, 1]).fake
        = ((ShapeTracker.new [3, 4, 5]).slice [(1, 4), (0, 2), (0, 9)]).fake ∧
    (((ShapeTracker.new [3, 4, 5]).slice [(1, 4), (0, 2), (0, 9)]).permute [2, 0, 1]).slices
        = ((ShapeTracker.new [3, 4, 5]).slice [(1, 4), (0, 2), (0, 9)]).slices ∧
    (((ShapeTracker.new [3, 4, 5]).slice [(1, 4), (0, 2), (0, 9)]).permute [2, 0, 1]).padding
        = ((ShapeTracker.new [3, 4, 5]).slice [(1, 4), (0, 2), (0, 9)]).padding ∧
    (((ShapeTracker.new [3, 4, 5]).slice [(1, 4), (0, 2), (0, 9)]).permute [2, 0, 1]).indexes.length
        = ((ShapeTracker.new [3, 4, 5]).slice [(1, 4), (0, 2), (0, 9)]).indexes.length ∧
    ∀ k, k < ([2, 0, 1] : List Nat).length →
      (((ShapeTracker.new [3, 4, 5]).slice [(1, 4), (0, 2), (0, 9)]).permute [2, 0, 1]).indexes.getD k 0
        = ((ShapeTracker.new [3, 4, 5]).slice [(1, 4), (0, 2), (0, 9)]).indexes.getD
            (([2, 0, 1] : List Nat).getD k 0) 0 :=
  ⟨⟨by decide, by decide, by decide⟩,
    C10_permute_only_indexes _ [2, 0, 1] (by decide) (by decide) (by decide)⟩

/-- C3: one 2D-matmul rewrite (matmul.rs lines 424-461) on a matched,
unpinned pattern — Multiply `mul` with sources `(a, T0)` and `(b, T1)`
presented as `[A,C,B]` with fake masks `[F,T,F]`/`[T,F,F]`, feeding a
SumReduce along axis 2 — removes `mul` and `sr`, inserts a single fused
`Matmul2D` node whose first input edge carries `T0` with `remove_dim(1)`
applied and whose second carries `T1` with `remove_dim(0)` then
`permute([1,0])` applied, and re-parents every outgoing edge of the
former SumReduce to the fused node. -/
theorem C3_matmul_fusion (g : Graph) (mul sr a b : Nat) (T0 T1 : ShapeTracker)
    (hpin : mul ∉ g.no_delete)
    (hmul : (mul, Op.mul) ∈ g.nodes)
    (hsr : (sr, Op.sumReduce 2) ∈ g.nodes)
    (hedge : ∃ e ∈ g.edges, e.src = mul ∧ e.dst = sr)
    (hsrc : g.getSources mul = [(a, T0), (b, T1)])
    (hshape3 : T0.shape.length = 3) (hshape : T0.shape = T1.shape)
    (hf0 : T0.presentedFakes = [false, true, false])
    (hf1 : T1.presentedFakes = [true, false, false])
    (hfresh : ∀ q ∈ g.nodes, q.1 < g.next_id)
    (hma : a ≠ mul) (hsa : a ≠ sr) (hmb : b ≠ mul) (hsb : b ≠ sr) :
    (g.matmulRewriteStep mul sr).nodes
        = g.nodes.filter (fun q => q.1 != mul && q.1 != sr)
            ++ [(g.next_id, Op.matmul2D)] ∧
    ({ src := a, dst := g.next_id, outIdx := 0, inpIdx := 0,
       tracker := T0.removeDimCore 1 : Edge } ∈ (g.matmulRewriteStep mul sr).edges) ∧
    ({ src := b, dst := g.next_id, outIdx := 0, inpIdx := 1,
       tracker := (T1.removeDimCore 0).permute [1, 0] : Edge }
         ∈ (g.matmulRewriteStep mul sr).edges) ∧
    ∀ e ∈ g.edges, e.src = sr → e.dst ≠ mul → e.dst ≠ sr →
      { e with src := g.next_id } ∈ (g.matmulRewriteStep mul sr).edges := by
  have hmulid : mul < g.next_id := hfresh _ hmul
  have hsrid : sr < g.next_id := hfresh _ hsr
  have hmne : g.next_id ≠ mul := by omega
  have hsne : g.next_id ≠ sr := by omega
  unfold Graph.matmulRewriteStep
  rw [if_neg hpin, hsrc]
  simp only [Graph.addOp, Graph.moveOutgoingEdge, Graph.moveReferences,
    Graph.removeNode, List.getD_cons_zero, List.getD_cons_succ,
    List.enum, List.enumFrom, List.map_cons, List.map_nil, List.map_append,
    List.filter_append, List.filter_filter, beq_iff_eq]
  refine ⟨?_, ?_, ?_, ?_⟩
  · simp only [List.filter_cons, List.filter_nil, hmne, hsne]
    simp [hmne, hsne]
    exact List.filter_congr (fun x _ => Bool.and_comm _ _)
  · simp [hma, hsa, hmne, hsne]
  · simp [hmb, hsb, hmne, hsne]
  · intro e he hes hdm hds
    simp only [List.mem_append, List.mem_filter, List.mem_map]
    refine Or.inl ⟨⟨e, he, ?_⟩, ?_⟩
    · rw [if_pos hes]
    · simp [hmne, hsne, hdm, hds]

/-- Witness tracker for C3: input A of shape `[2,4]` broadcast to
`[2,3,4]` with fake presented axis 1. -/
def w3T0 : ShapeTracker := (ShapeTracker.new [2, 4]).expand 1 3

/-- Witness tracker for C3: input B of shape `[4,3]`, permuted then
broadcast to `[2,3,4]` with fake presented axis 0. -/
def w3T1 : ShapeTracker := ((ShapeTracker.new [4, 3]).permute [1, 0]).expand 0 2

/-- Witness graph for C3: the scenario-5 graph — inputs A (node 0) and B
(node 1) feeding Multiply (node 2), SumReduce along axis 2 (node 3), and a
downstream consumer (node 4). -/
def wg3 : Graph where
  nodes := [(0, Op.inputOp), (1, Op.inputOp), (2, Op.mul), (3, Op.sumReduce 2),
            (4, Op.inputOp)]
  edges :=
    [{ src := 0, dst := 2, outIdx := 0, inpIdx := 0, tracker := w3T0 },
     { src := 1, dst := 2, outIdx := 0, inpIdx := 1, tracker := w3T1 },
     { src := 2, dst := 3, outIdx := 0, inpIdx := 0, tracker := ShapeTracker.new [2, 3, 4] },
     { src := 3, dst := 4, outIdx := 0, inpIdx := 0, tracker := ShapeTracker.new [2, 3] }]
  no_delete := []
  to_retrieve := [4]
  id_remap := []
  next_id := 5

/-- Witness for C3 at the scenario-5 graph. -/
theorem C3_matmul_fusion_witness :
    ((2 : Nat) ∉ wg3.no_delete ∧ ((2 : Nat), Op.mul) ∈ wg3.nodes ∧
      ((3 : Nat), Op.sumReduce 2) ∈ wg3.nodes ∧
      (∃ e ∈ wg3.edges, e.src = 2 ∧ e.dst = 3) ∧
      wg3.getSources 2 = [(0, w3T0), (1, w3T1)] ∧
      w3T0.shape.length = 3 ∧ w3T0.shape = w3T1.shape ∧
      w3T0.presentedFakes = [false, true, false] ∧
      w3T1.presentedFakes = [true, false, false] ∧
      (∀ q ∈ wg3.nodes, q.1 < wg3.next_id) ∧
      (0 : Nat) ≠ 2 ∧ (0 : Nat) ≠ 3 ∧ (1 : Nat) ≠ 2 ∧ (1 : Nat) ≠ 3) ∧
    ((wg3.matmulRewriteStep 2 3).nodes
        = wg3.nodes.filter (fun q => q.1 != 2 && q.1 != 3)
            ++ [(wg3.next_id, Op.matmul2D)] ∧
      ({ src := 0, dst := wg3.next_id, outIdx := 0, inpIdx := 0,
         tracker := w3T0.removeDimCore 1 : Edge } ∈ (wg3.matmulRewriteStep 2 3).edges) ∧
      ({ src := 1, dst := wg3.next_id, outIdx := 0, inpIdx := 1,
         tracker := (w3T1.removeDimCore 0).permute [1, 0] : Edge }
           ∈ (wg3.matmulRewriteStep 2 3).edges) ∧
      ∀ e ∈ wg3.edges, e.src = 3 → e.dst ≠ 2 → e.dst ≠ 3 →
        { e with src := wg3.next_id } ∈ (wg3.matmulRewriteStep 2 3).edges) :=
  ⟨⟨by decide, by decide, by decide, by decide, by decide, by decide, by decide,
     by decide, by decide, by decide, by decide, by decide, by decide, by decide⟩,
    C3_matmul_fusion wg3 2 3 0 1 w3T0 w3T1 (by decide) (by decide) (by decide)
      (by decide) (by decide) (by decide) (by decide) (by decide) (by decide)
      (by decide) (by decide) (by decide) (by decide) (by decide)⟩

end Luminal
